import Mathlib

/-!
Verification of the configuration lifecycle and connection-orchestration
layer of the mqtt-cli program (src/mqtt-cli.py).

The program keeps a single JSON object (a Python dict) as its configuration,
loaded from or created at the file .mqtt-cli-config.json at process start,
and the MqttClient class wraps a paho client handle built from that object.
We embed the JSON object as an association list of string keys and JSON
values (Python dicts preserve insertion order, as does json.dump/json.load),
and each operation of the program as a pure function on that state.
-/

namespace MqttCliModel

/-- A JSON value as it can appear in the configuration file: null, boolean,
integer, or string cover every value the program reads or writes. -/
inductive JValue where
  | jnull : JValue
  | jbool : Bool → JValue
  | jnum : Int → JValue
  | jstr : String → JValue
  deriving DecidableEq, Repr

/-- A JSON object / Python dict: keys in insertion order. -/
abbrev Config := List (String × JValue)

/-- Dict lookup `d[key]`: first entry with the key, `none` models KeyError. -/
def lookup : Config → String → Option JValue
  | [], _ => none
  | (k, v) :: rest, key => if k = key then some v else lookup rest key

/-- Dict assignment `d[k] = v`: replace the value at the key's slot when the
key is present (keeping its position, as a Python dict does), append at the
end otherwise. -/
def dictSet : Config → String → JValue → Config
  | [], k, v => [(k, v)]
  | (a, b) :: rest, k, v =>
    if a = k then (k, v) :: rest else (a, b) :: dictSet rest k v

/-- Python truthiness of a JSON value, as tested by `if username and password:`
(line 56): None and the empty string are falsy. -/
def truthy : JValue → Bool
  | .jnull => false
  | .jbool b => b
  | .jnum n => n != 0
  | .jstr s => s != ""

/-- paho's protocol constant MQTTv311 (MQTT 3.1.1). -/
def MQTTv311 : Int := 4

/-- The dict literal DEFAULT_CONFIG_SCHEMA of src/mqtt-cli.py lines 28-38,
in source order. -/
def DEFAULT_CONFIG_SCHEMA : Config :=
  [("server", .jstr "localhost"),
   ("port", .jnum 1883),
   ("client_id", .jstr "mqtt-cli"),
   ("clean_session", .jbool true),
   ("userdata", .jnull),
   ("username", .jnull),
   ("password", .jnull),
   ("protocol", .jnum MQTTv311),
   ("transport", .jstr "tcp")]

/-- State of the backing file .mqtt-cli-config.json: absent, present but not
valid JSON, or present holding a parsed JSON object. -/
inductive FileState where
  | absent : FileState
  | invalid : FileState
  | valid : Config → FileState
  deriving DecidableEq, Repr

/-- Outcome of the module-level load-or-create block (lines 40-47): either
the in-memory configuration together with a flag recording whether the
program reported that it created (initialized) the file, or the
ConfigCorruptError raised by json.load on an unparseable file. -/
inductive LoadResult where
  | ok : Config → Bool → LoadResult
  | configCorruptError : LoadResult
  deriving DecidableEq, Repr

/-- `json.dump` of the full in-memory dict over the file (lines 41-43,
63-64, 70-71): the file now holds exactly that object. -/
def save (cfg : Config) : FileState :=
  .valid cfg

/-- The module-level configuration load (src/mqtt-cli.py lines 40-47): if the
file is absent, report creation, write DEFAULT_CONFIG_SCHEMA to it and keep
that as the configuration; if present, the parsed object replaces the
defaults wholesale, and an unparseable file raises (ConfigCorruptError).
Returns the load outcome and the file state afterwards. -/
def load_or_init : FileState → LoadResult × FileState
  | .absent => (.ok DEFAULT_CONFIG_SCHEMA true, save DEFAULT_CONFIG_SCHEMA)
  | .invalid => (.configCorruptError, .invalid)
  | .valid cfg => (.ok cfg false, .valid cfg)

/-- The paho client handle as MqttClient.__init__ builds it (lines 50-57):
the positional client id and the protocol, transport, userdata and
clean_session keyword arguments, plus the credentials attached by
username_pw_set when the config has both a truthy username and a truthy
password. -/
structure ClientHandle where
  client_id : JValue
  protocol : JValue
  transport : JValue
  userdata : JValue
  clean_session : JValue
  credentials : Option (JValue × JValue)
  deriving DecidableEq, Repr

/-- The credentials MqttClient.__init__ attaches (lines 56-57):
`if config['username'] and config['password']:` looks up username, and only
when it is truthy looks up password (Python short-circuits `and`); the pair
is attached exactly when both are truthy. `none` in the outer Option models
a KeyError on a missing key. -/
def credsOf (cfg : Config) : Option (Option (JValue × JValue)) := do
  let u ← lookup cfg "username"
  if truthy u then
    let p ← lookup cfg "password"
    pure (if truthy p then some (u, p) else none)
  else
    pure none

/-- MqttClient.__init__ (lines 50-57): build the client handle from the
current configuration. `none` models a KeyError on a missing config key. -/
def mkClient (cfg : Config) : Option ClientHandle := do
  let cid ← lookup cfg "client_id"
  let proto ← lookup cfg "protocol"
  let trans ← lookup cfg "transport"
  let ud ← lookup cfg "userdata"
  let cs ← lookup cfg "clean_session"
  let creds ← credsOf cfg
  pure ⟨cid, proto, trans, ud, cs, creds⟩

/-- Network-visible actions an operation performs on the client handle. -/
inductive NetAction where
  | connectTo : JValue → JValue → NetAction
  | publishMsg : String → String → Int → Bool → NetAction
  | subscribeTo : String → NetAction
  deriving DecidableEq, Repr

/-- MqttClient.set_mqtt_server (lines 59-64): assign config['server'] and
config['port'], then json.dump the full dict over the file. Returns the new
in-memory config, the new file state, and the network actions performed
(none: the method never touches self.client). -/
def set_mqtt_server (cfg : Config) (server : String) (port : Int) :
    Config × FileState × List NetAction :=
  let cfg2 := dictSet (dictSet cfg "server" (.jstr server)) "port" (.jnum port)
  (cfg2, save cfg2, [])

/-- MqttClient.set_credentials (lines 66-71): assign config['username'] and
config['password'], then json.dump the full dict over the file. -/
def set_credentials (cfg : Config) (username password : String) :
    Config × FileState × List NetAction :=
  let cfg2 := dictSet (dictSet cfg "username" (.jstr username)) "password" (.jstr password)
  (cfg2, save cfg2, [])

/-- Whether the synchronous client.connect call to the broker succeeds or
raises (broker unreachable / connection rejected at transport level). The
broker's behaviour is external to the program, so it is a parameter. -/
inductive ConnectOutcome where
  | success : ConnectOutcome
  | unreachable : ConnectOutcome
  deriving DecidableEq, Repr

/-- An error escaping an MqttClient operation. -/
inductive OpError where
  | connectionError : OpError
  deriving DecidableEq, Repr

/-- MqttClient.publish (lines 73-77): look up server and port, call
client.connect(server, port); the connect exception propagates, so on a
failed connect the method ends with ConnectionError and client.publish is
never reached; otherwise publish(topic, message, qos, retain) is issued.
Returns the outcome and the actions performed, `none` on a KeyError. -/
def publish (cfg : Config) (co : ConnectOutcome) (topic message : String)
    (qos : Int) (retain : Bool) : Option (Except OpError Unit × List NetAction) := do
  let s ← lookup cfg "server"
  let p ← lookup cfg "port"
  match co with
  | .unreachable => pure (.error .connectionError, [.connectTo s p])
  | .success => pure (.ok (), [.connectTo s p, .publishMsg topic message qos retain])

/-- MqttClient.subscribe (lines 79-83): connect to (server, port), then issue
client.subscribe(topic); a connect failure propagates first. -/
def subscribe (cfg : Config) (co : ConnectOutcome) (topic : String) :
    Option (Except OpError Unit × List NetAction) := do
  let s ← lookup cfg "server"
  let p ← lookup cfg "port"
  match co with
  | .unreachable => pure (.error .connectionError, [.connectTo s p])
  | .success => pure (.ok (), [.connectTo s p, .subscribeTo topic])

/-- Events of MqttClient.view_messages in order: connect, subscribe,
client.loop_start, the one-second sleeps of the `while True` wait loop,
client.loop_stop in the KeyboardInterrupt handler, and returning. -/
inductive ViewEvent where
  | connectTo : JValue → JValue → ViewEvent
  | subscribeTo : String → ViewEvent
  | loopStart : ViewEvent
  | sleepTick : ViewEvent
  | loopStop : ViewEvent
  | returned : ViewEvent
  deriving DecidableEq, Repr

/-- MqttClient.view_messages (lines 85-97): connect, subscribe, start the
background delivery loop, then sleep in an unconditional `while True` loop.
`interruptAfter` is the external KeyboardInterrupt: `some n` delivers it
after n sleep ticks, upon which the handler calls loop_stop and the method
returns; `none` means no interrupt ever arrives, and the inner `none` of
the result records that the method never returns. The outer Option models
a KeyError on a missing config key. -/
def view_messages (cfg : Config) (interruptAfter : Option Nat) (topic : String) :
    Option (Option (List ViewEvent)) := do
  let s ← lookup cfg "server"
  let p ← lookup cfg "port"
  pure (match interruptAfter with
    | none => none
    | some n =>
      some ([.connectTo s p, .subscribeTo topic, .loopStart]
        ++ List.replicate n .sleepTick ++ [.loopStop, .returned]))

/-- The ConnectionConfig defaults exactly as the spec's data model documents
them, with exactly the documented fields and no other: server "localhost",
port 1883, clientId "mqtt-cli", cleanSession true, username and password
absent, protocol MQTT 3.1.1, transport "tcp". Stated from the spec's words,
to be compared with DEFAULT_CONFIG_SCHEMA, the record the source persists. -/
def documentedDefaults : Config :=
  [("server", .jstr "localhost"),
   ("port", .jnum 1883),
   ("client_id", .jstr "mqtt-cli"),
   ("clean_session", .jbool true),
   ("username", .jnull),
   ("password", .jnull),
   ("protocol", .jnum MQTTv311),
   ("transport", .jstr "tcp")]

/-- An optional string field value: a string, or null for absent. -/
def isOptString : JValue → Bool
  | .jnull => true
  | .jstr _ => true
  | _ => false

/-- A present, non-empty string value. -/
def isNonEmptyString : JValue → Bool
  | .jstr s => s != ""
  | _ => false


/-! Lemmas about dict lookup and assignment. -/

theorem lookup_dictSet_self (d : Config) (k : String) (v : JValue) :
    lookup (dictSet d k v) k = some v := by
  induction d with
  | nil => simp [dictSet, lookup]
  | cons q rest ih =>
    obtain ⟨a, b⟩ := q
    by_cases hak : a = k
    · simp [dictSet, hak, lookup]
    · simp [dictSet, hak, lookup, ih]

theorem lookup_dictSet_ne (d : Config) (k k' : String) (v : JValue) (h : k' ≠ k) :
    lookup (dictSet d k v) k' = lookup d k' := by
  induction d with
  | nil =>
    have hne : k ≠ k' := Ne.symm h
    simp [dictSet, lookup, hne]
  | cons q rest ih =>
    obtain ⟨a, b⟩ := q
    by_cases hak : a = k
    · subst hak
      have hne : a ≠ k' := fun hh => h hh.symm
      simp [dictSet, lookup, hne]
    · simp [dictSet, hak, lookup, ih]

theorem dictSet_eq_self_of_lookup (d : Config) (k : String) (v : JValue)
    (h : lookup d k = some v) : dictSet d k v = d := by
  induction d with
  | nil => simp [lookup] at h
  | cons q rest ih =>
    obtain ⟨a, b⟩ := q
    by_cases hak : a = k
    · subst hak
      have hb : b = v := by simpa [lookup] using h
      simp [dictSet, hb]
    · simp only [lookup, if_neg hak] at h
      simp [dictSet, hak, ih h]

theorem mkClient_credentials (cfg : Config) (h : ClientHandle)
    (hmk : mkClient cfg = some h) : credsOf cfg = some h.credentials := by
  simp only [mkClient, Option.bind_eq_bind, Option.bind_eq_some', Option.pure_def,
    Option.some.injEq] at hmk
  obtain ⟨cid, -, proto, -, trans, -, ud, -, cs, -, creds, hcreds, heq⟩ := hmk
  subst heq
  simpa using hcreds

/-! Claim theorems. -/

/-- C1 counterexample: with no existing configuration file, the record the
program creates and persists is not "exactly the documented defaults": it
also contains an undocumented userdata field (set to null), so its field
list differs from the documented one. -/
theorem C1_counterexample :
    load_or_init FileState.absent ≠
      (LoadResult.ok documentedDefaults true, save documentedDefaults) ∧
    DEFAULT_CONFIG_SCHEMA.map Prod.fst ≠ documentedDefaults.map Prod.fst ∧
    lookup DEFAULT_CONFIG_SCHEMA "userdata" = some JValue.jnull ∧
    lookup documentedDefaults "userdata" = none := by
  decide

/-- C1 (amended): with no existing configuration file, load_or_init creates
the backing file populated with the documented defaults (server "localhost",
port 1883, clientId "mqtt-cli", cleanSession true, username and password
absent, protocol MQTT 3.1.1, transport "tcp") plus an undocumented userdata
field set to null, persists that record, reports that initialization
occurred, and returns that same record. -/
theorem C1_default_creation :
    load_or_init FileState.absent =
      (LoadResult.ok DEFAULT_CONFIG_SCHEMA true, FileState.valid DEFAULT_CONFIG_SCHEMA) ∧
    lookup DEFAULT_CONFIG_SCHEMA "server" = some (JValue.jstr "localhost") ∧
    lookup DEFAULT_CONFIG_SCHEMA "port" = some (JValue.jnum 1883) ∧
    lookup DEFAULT_CONFIG_SCHEMA "client_id" = some (JValue.jstr "mqtt-cli") ∧
    lookup DEFAULT_CONFIG_SCHEMA "clean_session" = some (JValue.jbool true) ∧
    lookup DEFAULT_CONFIG_SCHEMA "username" = some JValue.jnull ∧
    lookup DEFAULT_CONFIG_SCHEMA "password" = some JValue.jnull ∧
    lookup DEFAULT_CONFIG_SCHEMA "protocol" = some (JValue.jnum MQTTv311) ∧
    lookup DEFAULT_CONFIG_SCHEMA "transport" = some (JValue.jstr "tcp") ∧
    lookup DEFAULT_CONFIG_SCHEMA "userdata" = some JValue.jnull ∧
    DEFAULT_CONFIG_SCHEMA.map Prod.fst =
      ["server", "port", "client_id", "clean_session", "userdata",
       "username", "password", "protocol", "transport"] := by
  decide

/-- C2: saving any configuration record and then loading yields exactly the
record that was saved, with no field changed or dropped, and without
re-reporting initialization. -/
theorem C2_save_load_roundtrip (cfg : Config) :
    load_or_init (save cfg) = (LoadResult.ok cfg false, save cfg) :=
  rfl

/-- C3: a backing file that exists and parses yields exactly the parsed
record, whatever its fields are, with the defaults entirely replaced and
nothing merged in; a file that exists but is not valid structured data
makes load_or_init fail with ConfigCorruptError. In particular a one-field
file loads to exactly that one-field config. -/
theorem C3_load_replaces_defaults (cfg : Config) :
    load_or_init (FileState.valid cfg) = (LoadResult.ok cfg false, FileState.valid cfg) ∧
    load_or_init FileState.invalid = (LoadResult.configCorruptError, FileState.invalid) ∧
    (load_or_init (FileState.valid [("server", JValue.jstr "h")])).1 =
      LoadResult.ok [("server", JValue.jstr "h")] false :=
  ⟨rfl, rfl, rfl⟩

/-- C9: set_mqtt_server is idempotent on the persisted state: applying it a
second time with the same server and port returns the identical in-memory
config, file state and action list as the first application. -/
theorem C9_set_server_idempotent (cfg : Config) (server : String) (port : Int) :
    set_mqtt_server (set_mqtt_server cfg server port).1 server port =
      set_mqtt_server cfg server port := by
  have h1 : lookup (dictSet (dictSet cfg "server" (JValue.jstr server))
      "port" (JValue.jnum port)) "server" = some (JValue.jstr server) := by
    rw [lookup_dictSet_ne _ _ _ _ (by decide), lookup_dictSet_self]
  have key : dictSet (dictSet (dictSet (dictSet cfg "server" (JValue.jstr server))
        "port" (JValue.jnum port)) "server" (JValue.jstr server)) "port" (JValue.jnum port)
      = dictSet (dictSet cfg "server" (JValue.jstr server)) "port" (JValue.jnum port) := by
    rw [dictSet_eq_self_of_lookup _ _ _ h1,
      dictSet_eq_self_of_lookup _ _ _ (lookup_dictSet_self _ _ _)]
  simp [set_mqtt_server, key]

/-- C10: each mutating operation rewrites the entire record: after
set_mqtt_server and after set_credentials the on-disk file holds exactly
the new in-memory configuration, so reloading it returns that identical
record. -/
theorem C10_mutations_persist_full_record (cfg : Config) (server : String)
    (port : Int) (username password : String) :
    (set_mqtt_server cfg server port).2.1 =
      FileState.valid (set_mqtt_server cfg server port).1 ∧
    (set_credentials cfg username password).2.1 =
      FileState.valid (set_credentials cfg username password).1 ∧
    load_or_init (set_mqtt_server cfg server port).2.1 =
      (LoadResult.ok (set_mqtt_server cfg server port).1 false,
        (set_mqtt_server cfg server port).2.1) ∧
    load_or_init (set_credentials cfg username password).2.1 =
      (LoadResult.ok (set_credentials cfg username password).1 false,
        (set_credentials cfg username password).2.1) :=
  ⟨rfl, rfl, rfl, rfl⟩

/-- C4 counterexample: the client handle is not always built with a nil
userdata: for the reachable configuration obtained by loading a persisted
file whose userdata field is 7, the handle's userdata is 7, not null (the
source passes config['userdata'] to the client constructor). -/
theorem C4_counterexample :
    Option.map ClientHandle.userdata
      (mkClient (dictSet DEFAULT_CONFIG_SCHEMA "userdata" (JValue.jnum 7)))
      = some (JValue.jnum 7) ∧
    some (JValue.jnum 7) ≠ some JValue.jnull ∧
    load_or_init (FileState.valid (dictSet DEFAULT_CONFIG_SCHEMA "userdata" (JValue.jnum 7)))
      = (LoadResult.ok (dictSet DEFAULT_CONFIG_SCHEMA "userdata" (JValue.jnum 7)) false,
         FileState.valid (dictSet DEFAULT_CONFIG_SCHEMA "userdata" (JValue.jnum 7))) := by
  decide

/-- C4 (amended): for every publish, subscribe and viewMessages operation,
the connection is established by building a client handle parameterized by
the current config's clientId, protocol, transport, cleanSession, and the
config's userdata value (null in the default configuration); attaching
username and password to the handle before connecting when both are set;
and then issuing a synchronous connect to the current config's
(server, port) before the operation's own request. -/
theorem C4_connection_establishment (cfg : Config)
    (cid proto trans ud cs s p : JValue) (creds : Option (JValue × JValue))
    (topic message : String) (qos : Int) (retain : Bool) (n : Nat)
    (hcid : lookup cfg "client_id" = some cid)
    (hproto : lookup cfg "protocol" = some proto)
    (htrans : lookup cfg "transport" = some trans)
    (hud : lookup cfg "userdata" = some ud)
    (hcs : lookup cfg "clean_session" = some cs)
    (hcreds : credsOf cfg = some creds)
    (hs : lookup cfg "server" = some s)
    (hp : lookup cfg "port" = some p) :
    mkClient cfg = some ⟨cid, proto, trans, ud, cs, creds⟩ ∧
    publish cfg ConnectOutcome.success topic message qos retain =
      some (Except.ok (), [NetAction.connectTo s p,
        NetAction.publishMsg topic message qos retain]) ∧
    subscribe cfg ConnectOutcome.success topic =
      some (Except.ok (), [NetAction.connectTo s p, NetAction.subscribeTo topic]) ∧
    view_messages cfg (some n) topic =
      some (some ([ViewEvent.connectTo s p, ViewEvent.subscribeTo topic,
        ViewEvent.loopStart] ++ List.replicate n ViewEvent.sleepTick
        ++ [ViewEvent.loopStop, ViewEvent.returned])) := by
  refine ⟨?_, ?_, ?_, ?_⟩ <;>
    simp [mkClient, publish, subscribe, view_messages,
      hcid, hproto, htrans, hud, hcs, hcreds, hs, hp]

/-- C4 witness: the amended statement evaluated on the default
configuration. -/
theorem C4_connection_establishment_witness :
    mkClient DEFAULT_CONFIG_SCHEMA = some ⟨JValue.jstr "mqtt-cli",
      JValue.jnum MQTTv311, JValue.jstr "tcp", JValue.jnull,
      JValue.jbool true, none⟩ ∧
    publish DEFAULT_CONFIG_SCHEMA ConnectOutcome.success "sensors/temp" "21.5" 0 false =
      some (Except.ok (), [NetAction.connectTo (JValue.jstr "localhost") (JValue.jnum 1883),
        NetAction.publishMsg "sensors/temp" "21.5" 0 false]) ∧
    subscribe DEFAULT_CONFIG_SCHEMA ConnectOutcome.success "sensors/temp" =
      some (Except.ok (), [NetAction.connectTo (JValue.jstr "localhost") (JValue.jnum 1883),
        NetAction.subscribeTo "sensors/temp"]) ∧
    view_messages DEFAULT_CONFIG_SCHEMA (some 2) "sensors/temp" =
      some (some ([ViewEvent.connectTo (JValue.jstr "localhost") (JValue.jnum 1883),
        ViewEvent.subscribeTo "sensors/temp", ViewEvent.loopStart]
        ++ List.replicate 2 ViewEvent.sleepTick
        ++ [ViewEvent.loopStop, ViewEvent.returned])) :=
  C4_connection_establishment DEFAULT_CONFIG_SCHEMA (JValue.jstr "mqtt-cli")
    (JValue.jnum MQTTv311) (JValue.jstr "tcp") JValue.jnull (JValue.jbool true)
    (JValue.jstr "localhost") (JValue.jnum 1883) none "sensors/temp" "21.5" 0 false 2
    rfl rfl rfl rfl rfl rfl rfl rfl

/-- C5: credentials are attached to the client handle iff both the username
and the password values are simultaneously non-empty strings; in particular
with the password absent (null) no credentials are attached, whatever the
username. -/
theorem C5_credential_gating (cfg : Config) (h : ClientHandle) (u p : JValue)
    (hu : lookup cfg "username" = some u)
    (hp : lookup cfg "password" = some p)
    (hou : isOptString u = true)
    (hop : isOptString p = true)
    (hmk : mkClient cfg = some h) :
    h.credentials =
      (if isNonEmptyString u && isNonEmptyString p then some (u, p) else none) ∧
    (p = JValue.jnull → h.credentials = none) := by
  have hc := mkClient_credentials cfg h hmk
  have htu : truthy u = isNonEmptyString u := by
    cases u <;> simp_all [isOptString, truthy, isNonEmptyString]
  have htp : truthy p = isNonEmptyString p := by
    cases p <;> simp_all [isOptString, truthy, isNonEmptyString]
  simp only [credsOf, Option.bind_eq_bind, hu, Option.some_bind, hp, htu, htp,
    Option.pure_def] at hc
  have h2 : (if isNonEmptyString u = true then
        (if isNonEmptyString p = true then some (u, p) else none)
      else none) = h.credentials :=
    Option.some.inj (by rw [apply_ite some]; exact hc)
  refine ⟨?_, ?_⟩
  · rw [← h2]
    cases hnu : isNonEmptyString u <;> cases hnp : isNonEmptyString p <;>
      simp [hnu, hnp]
  · intro hpn
    subst hpn
    rw [← h2]
    simp [isNonEmptyString]

/-- C5 witness: the gating evaluated on a configuration whose username is
"alice" and whose password is absent: no credentials are attached. -/
theorem C5_credential_gating_witness :
    (ClientHandle.mk (JValue.jstr "mqtt-cli") (JValue.jnum MQTTv311)
        (JValue.jstr "tcp") JValue.jnull (JValue.jbool true) none).credentials =
      (if isNonEmptyString (JValue.jstr "alice") && isNonEmptyString JValue.jnull
        then some (JValue.jstr "alice", JValue.jnull) else none) ∧
    (JValue.jnull = JValue.jnull →
      (ClientHandle.mk (JValue.jstr "mqtt-cli") (JValue.jnum MQTTv311)
        (JValue.jstr "tcp") JValue.jnull (JValue.jbool true) none).credentials = none) :=
  C5_credential_gating (dictSet DEFAULT_CONFIG_SCHEMA "username" (JValue.jstr "alice"))
    (ClientHandle.mk (JValue.jstr "mqtt-cli") (JValue.jnum MQTTv311)
      (JValue.jstr "tcp") JValue.jnull (JValue.jbool true) none)
    (JValue.jstr "alice") JValue.jnull (by decide) (by decide) (by decide) (by decide)
    (by decide)

/-- C6: set_mqtt_server sets exactly server and port, leaves every other
field at its prior value, persists the full record (so reloading shows
exactly the new record), and performs no network action (no connection
attempt). -/
theorem C6_set_server_frame (cfg : Config) (server : String) (port : Int)
    (k : String) (hk1 : k ≠ "server") (hk2 : k ≠ "port") :
    lookup (set_mqtt_server cfg server port).1 "server" = some (JValue.jstr server) ∧
    lookup (set_mqtt_server cfg server port).1 "port" = some (JValue.jnum port) ∧
    lookup (set_mqtt_server cfg server port).1 k = lookup cfg k ∧
    (set_mqtt_server cfg server port).2.1 = save (set_mqtt_server cfg server port).1 ∧
    (set_mqtt_server cfg server port).2.2 = [] ∧
    load_or_init (set_mqtt_server cfg server port).2.1 =
      (LoadResult.ok (set_mqtt_server cfg server port).1 false,
        (set_mqtt_server cfg server port).2.1) := by
  refine ⟨?_, ?_, ?_, rfl, rfl, rfl⟩
  · show lookup (dictSet (dictSet cfg "server" (JValue.jstr server))
        "port" (JValue.jnum port)) "server" = some (JValue.jstr server)
    rw [lookup_dictSet_ne _ _ _ _ (by decide), lookup_dictSet_self]
  · show lookup (dictSet (dictSet cfg "server" (JValue.jstr server))
        "port" (JValue.jnum port)) "port" = some (JValue.jnum port)
    rw [lookup_dictSet_self]
  · show lookup (dictSet (dictSet cfg "server" (JValue.jstr server))
        "port" (JValue.jnum port)) k = lookup cfg k
    rw [lookup_dictSet_ne _ _ _ _ hk2, lookup_dictSet_ne _ _ _ _ hk1]

/-- C6 witness: setting the broker to broker.example.com:8883 on the default
configuration: server and port change, client_id keeps its prior value, the
full record is persisted and nothing connects. -/
theorem C6_set_server_frame_witness :
    lookup (set_mqtt_server DEFAULT_CONFIG_SCHEMA "broker.example.com" 8883).1 "server"
      = some (JValue.jstr "broker.example.com") ∧
    lookup (set_mqtt_server DEFAULT_CONFIG_SCHEMA "broker.example.com" 8883).1 "port"
      = some (JValue.jnum 8883) ∧
    lookup (set_mqtt_server DEFAULT_CONFIG_SCHEMA "broker.example.com" 8883).1 "client_id"
      = lookup DEFAULT_CONFIG_SCHEMA "client_id" ∧
    (set_mqtt_server DEFAULT_CONFIG_SCHEMA "broker.example.com" 8883).2.1 =
      save (set_mqtt_server DEFAULT_CONFIG_SCHEMA "broker.example.com" 8883).1 ∧
    (set_mqtt_server DEFAULT_CONFIG_SCHEMA "broker.example.com" 8883).2.2 = [] ∧
    load_or_init (set_mqtt_server DEFAULT_CONFIG_SCHEMA "broker.example.com" 8883).2.1 =
      (LoadResult.ok (set_mqtt_server DEFAULT_CONFIG_SCHEMA "broker.example.com" 8883).1 false,
        (set_mqtt_server DEFAULT_CONFIG_SCHEMA "broker.example.com" 8883).2.1) :=
  C6_set_server_frame DEFAULT_CONFIG_SCHEMA "broker.example.com" 8883 "client_id"
    (by decide) (by decide)

/-- C7: when the broker is unreachable, publish ends with ConnectionError
after the failed connect, and the publish request is never issued to the
client: the only action performed is the connect attempt. -/
theorem C7_publish_unreachable (cfg : Config) (s p : JValue)
    (topic message : String) (qos : Int) (retain : Bool)
    (hs : lookup cfg "server" = some s) (hp : lookup cfg "port" = some p) :
    publish cfg ConnectOutcome.unreachable topic message qos retain =
      some (Except.error OpError.connectionError, [NetAction.connectTo s p]) ∧
    NetAction.publishMsg topic message qos retain ∉ [NetAction.connectTo s p] := by
  constructor
  · simp [publish, hs, hp]
  · simp

/-- C7 witness: publishing "21.5" to sensors/temp on the default
configuration with the broker unreachable. -/
theorem C7_publish_unreachable_witness :
    publish DEFAULT_CONFIG_SCHEMA ConnectOutcome.unreachable "sensors/temp" "21.5" 0 false =
      some (Except.error OpError.connectionError,
        [NetAction.connectTo (JValue.jstr "localhost") (JValue.jnum 1883)]) ∧
    NetAction.publishMsg "sensors/temp" "21.5" 0 false ∉
      [NetAction.connectTo (JValue.jstr "localhost") (JValue.jnum 1883)] :=
  C7_publish_unreachable DEFAULT_CONFIG_SCHEMA (JValue.jstr "localhost")
    (JValue.jnum 1883) "sensors/temp" "21.5" 0 false rfl rfl

/-- C8: when the interrupt signal arrives (after any number of wait-loop
ticks), view_messages stops the background delivery loop and only then
returns — the trace ends with loopStop immediately followed by returned —
and without an interrupt the wait loop never exits, so the interrupt is
the only path out. -/
theorem C8_view_messages_cancellation (cfg : Config) (s p : JValue)
    (topic : String) (n : Nat)
    (hs : lookup cfg "server" = some s) (hp : lookup cfg "port" = some p) :
    view_messages cfg (some n) topic =
      some (some ([ViewEvent.connectTo s p, ViewEvent.subscribeTo topic,
        ViewEvent.loopStart] ++ List.replicate n ViewEvent.sleepTick
        ++ [ViewEvent.loopStop, ViewEvent.returned])) ∧
    view_messages cfg none topic = some none := by
  constructor <;> simp [view_messages, hs, hp]

/-- C8 witness: viewing sensors/temp on the default configuration with the
interrupt delivered after two wait-loop ticks. -/
theorem C8_view_messages_cancellation_witness :
    view_messages DEFAULT_CONFIG_SCHEMA (some 2) "sensors/temp" =
      some (some ([ViewEvent.connectTo (JValue.jstr "localhost") (JValue.jnum 1883),
        ViewEvent.subscribeTo "sensors/temp", ViewEvent.loopStart]
        ++ List.replicate 2 ViewEvent.sleepTick
        ++ [ViewEvent.loopStop, ViewEvent.returned])) ∧
    view_messages DEFAULT_CONFIG_SCHEMA none "sensors/temp" = some none :=
  C8_view_messages_cancellation DEFAULT_CONFIG_SCHEMA (JValue.jstr "localhost")
    (JValue.jnum 1883) "sensors/temp" 2 rfl rfl

end MqttCliModel
